import Mathlib

/-!
Verification of `markdown2html.py`: a line-oriented Markdown-to-HTML block
parser (`parse_custom_markdown`) plus a small CLI shell
(`convert_markdown_to_html`, `main`).

The Python string operations used by the source are embedded first
(`splitlines`, `strip`, `startswith`, slicing, `join`), then the parser's
per-line loop body (`processLine`) and the end-of-input reconciliation,
exactly following the branch structure of the source.
-/

namespace Md2Html

/-- Python `str.splitlines()` restricted to the terminators `\n`, `\r` and
`\r\n`: every terminator ends a line; a final line without terminator is kept,
but no empty final element is produced after a trailing terminator. -/
def pySplitlinesAux : List Char → List Char → List String
  | acc, [] => if acc = [] then [] else [String.mk acc]
  | acc, '\r' :: '\n' :: rest => String.mk acc :: pySplitlinesAux [] rest
  | acc, '\r' :: rest => String.mk acc :: pySplitlinesAux [] rest
  | acc, '\n' :: rest => String.mk acc :: pySplitlinesAux [] rest
  | acc, c :: rest => pySplitlinesAux (acc ++ [c]) rest

/-- `md_content.splitlines()` (line 28 of the source). -/
def pySplitlines (s : String) : List String :=
  pySplitlinesAux [] s.data

/-- The characters Python `str.strip()` removes (ASCII whitespace). -/
def pyIsSpace (c : Char) : Bool :=
  c == ' ' || c == '\t' || c == '\n' || c == '\r' || c == '\x0b' || c == '\x0c'

/-- Python `str.strip()`: drop leading and trailing whitespace. -/
def pyStrip (s : String) : String :=
  String.mk (((s.data.dropWhile pyIsSpace).reverse.dropWhile pyIsSpace).reverse)

/-- Python slicing `s[n:]`. -/
def strDrop (s : String) (n : Nat) : String :=
  String.mk (s.data.drop n)

/-- The two list kinds; in the source `list_type` is the string
`'ordered'` or `'unordered'` (or `None`, modelled by `Option`). -/
inductive ListType where
  | ordered
  | unordered
deriving DecidableEq, Repr

/-- The loop state of `parse_custom_markdown` (lines 29-32):
`html_output`, `in_list`, `list_type`, `paragraph_lines`. -/
structure ParserState where
  html_output : List String
  in_list : Bool
  list_type : Option ListType
  paragraph_lines : List String
deriving DecidableEq, Repr

/-- The initial state (lines 29-32 of the source). -/
def initState : ParserState := ⟨[], false, none, []⟩

/-- The paragraph flush that the source repeats inline in three branches
(lines 38-40, 48-50, 58-60): `if paragraph_lines:` append
`<p>{' '.join(paragraph_lines)}</p>` and clear the buffer. -/
def flushParagraph (st : ParserState) : ParserState :=
  if st.paragraph_lines = [] then st
  else
    { st with
      html_output :=
        st.html_output ++ ["<p>" ++ String.intercalate " " st.paragraph_lines ++ "</p>"],
      paragraph_lines := [] }

/-- The list close that the source repeats inline (lines 61-67, 69-75,
83-87): `if in_list:` append `</ol>` or `</ul>` according to `list_type`,
then clear both flags.  (At end-of-input the source does not clear the
flags, but the state is discarded there, so the same helper is used.) -/
def closeList (st : ParserState) : ParserState :=
  if st.in_list then
    let tags : List String :=
      match st.list_type with
      | some ListType.ordered => ["</ol>"]
      | some ListType.unordered => ["</ul>"]
      | none => []
    { st with html_output := st.html_output ++ tags, in_list := false, list_type := none }
  else st

/-- The body of the `for line in lines:` loop (lines 34-76 of the source):
strip the line, then the `'* '` / `'- '` / blank / plain-text branch chain. -/
def processLine (st : ParserState) (line : String) : ParserState :=
  let stripped_line := pyStrip line
  if List.isPrefixOf ['*', ' '] stripped_line.data then
    let st1 := flushParagraph st
    let st2 :=
      if st1.in_list then st1
      else
        { st1 with
          html_output := st1.html_output ++ ["<ol>"],
          in_list := true,
          list_type := some ListType.ordered }
    let item_text := pyStrip (strDrop stripped_line 2)
    { st2 with html_output := st2.html_output ++ ["<li>" ++ item_text ++ "</li>"] }
  else if List.isPrefixOf ['-', ' '] stripped_line.data then
    let st1 := flushParagraph st
    let st2 :=
      if st1.in_list then st1
      else
        { st1 with
          html_output := st1.html_output ++ ["<ul>"],
          in_list := true,
          list_type := some ListType.unordered }
    let item_text := pyStrip (strDrop stripped_line 2)
    { st2 with html_output := st2.html_output ++ ["<li>" ++ item_text ++ "</li>"] }
  else if stripped_line = "" then
    closeList (flushParagraph st)
  else
    let st1 := closeList st
    { st1 with paragraph_lines := st1.paragraph_lines ++ [stripped_line] }

/-- The state after the scan over all lines of the document. -/
def scanState (md_content : String) : ParserState :=
  List.foldl processLine initState (pySplitlines md_content)

/-- The `html_output` after the end-of-input reconciliation (lines 78-87):
flush any pending paragraph, then close any still-open list. -/
def finalFragments (md_content : String) : List String :=
  (closeList (flushParagraph (scanState md_content))).html_output

/-- `parse_custom_markdown` (lines 17-89): the fragments joined by `\n`. -/
def parse_custom_markdown (md_content : String) : String :=
  String.intercalate "\n" (finalFragments md_content)

/-! ### Observers for stating invariants about the emitted fragments -/

/-- One step of a checker that walks the emitted fragments and tracks which
list block (if any) is currently open.  It fails (`none`) if an opening tag
appears while a list is already open, or a closing tag appears that does not
match the currently open kind. -/
def tagStep (acc : Option (Option ListType)) (f : String) : Option (Option ListType) :=
  match acc with
  | none => none
  | some cur =>
    if f = "<ol>" then (if cur = none then some (some ListType.ordered) else none)
    else if f = "<ul>" then (if cur = none then some (some ListType.unordered) else none)
    else if f = "</ol>" then (if cur = some ListType.ordered then some none else none)
    else if f = "</ul>" then (if cur = some ListType.unordered then some none else none)
    else some cur

/-- Walk a fragment list with `tagStep` from a given open-list state.
`scanTags none frags = some none` says the list tags in `frags` are properly
matched with no list left open at the end. -/
def scanTags (cur : Option ListType) (frags : List String) : Option (Option ListType) :=
  List.foldl tagStep (some cur) frags

/-- The state-machine invariant: `in_list` agrees with `list_type`, and the
fragments emitted so far are list-tag consistent, with the currently open
list (if any) being exactly `list_type`. -/
def Inv (st : ParserState) : Prop :=
  st.in_list = st.list_type.isSome ∧ scanTags none st.html_output = some st.list_type

/-- Every fragment the parser can emit: a bare list delimiter, a complete
list item, or a complete paragraph. -/
def FragShape (f : String) : Prop :=
  f = "<ol>" ∨ f = "</ol>" ∨ f = "<ul>" ∨ f = "</ul>" ∨
    (∃ t, f = "<li>" ++ t ++ "</li>") ∨ (∃ t, f = "<p>" ++ t ++ "</p>")

/-! ### The CLI shell (`convert_markdown_to_html`, `main`, lines 91-136)

File-system effects are abstracted: `inputExists` is the result of
`os.path.exists`, `readResult` the outcome of opening/reading the input
(`Except.error e` when Python would raise with message `e`), `writeResult`
the outcome of opening/writing the output.  The external `markdown.markdown`
library call is an abstract total function `mdlib`.  A run is summarised by
its exit code and the lines printed to standard output and standard error. -/

structure FS where
  inputExists : Bool
  readResult : Except String String
  writeResult : Except String Unit

structure RunResult where
  exitCode : Nat
  stdout : List String
  stderr : List String
deriving DecidableEq, Repr

/-- `convert_markdown_to_html` (lines 91-120).  All diagnostics use
`print(...)`, i.e. standard output; `sys.exit(1)` on any failure; falling
through the `try` block yields exit code 0. -/
def convert_markdown_to_html (mdlib : String → String) (fs : FS)
    (input_file output_file : String) : RunResult :=
  if fs.inputExists = false then
    ⟨1, ["Error: The file " ++ input_file ++ " does not exist."], []⟩
  else
    match fs.readResult with
    | Except.error e => ⟨1, ["An error occurred: " ++ e], []⟩
    | Except.ok md_content =>
      let html_content := mdlib (parse_custom_markdown md_content)
      match fs.writeResult with
      | Except.error e => ⟨1, ["An error occurred: " ++ e], []⟩
      | Except.ok _ =>
        let _ := html_content
        ⟨0, ["Successfully converted " ++ input_file ++ " to " ++ output_file], []⟩

/-- `main` (lines 122-133): `sys.argv` (program name included) must have
exactly three elements, otherwise the usage string is printed and the exit
code is 1. -/
def main (mdlib : String → String) (fs : FS) (argv : List String) : RunResult :=
  if argv.length ≠ 3 then
    ⟨1, ["Usage: python3 markdown2html.py <input_file.md> <output_file.html>"], []⟩
  else
    convert_markdown_to_html mdlib fs (argv.getD 1 "") (argv.getD 2 "")

/-! ### Branch characterizations of the loop body -/

lemma processLine_ordered_open (st : ParserState) (line : String)
    (h : List.isPrefixOf ['*', ' '] (pyStrip line).data = true)
    (hl : (flushParagraph st).in_list = true) :
    processLine st line =
      { flushParagraph st with
        html_output :=
          (flushParagraph st).html_output ++
            ["<li>" ++ pyStrip (strDrop (pyStrip line) 2) ++ "</li>"] } := by
  unfold processLine
  simp only [h, if_true, hl]

lemma processLine_ordered_new (st : ParserState) (line : String)
    (h : List.isPrefixOf ['*', ' '] (pyStrip line).data = true)
    (hl : (flushParagraph st).in_list = false) :
    processLine st line =
      { flushParagraph st with
        html_output :=
          ((flushParagraph st).html_output ++ ["<ol>"]) ++
            ["<li>" ++ pyStrip (strDrop (pyStrip line) 2) ++ "</li>"],
        in_list := true,
        list_type := some ListType.ordered } := by
  unfold processLine
  simp only [h, if_true, hl, Bool.false_eq_true, if_false]

lemma processLine_unordered_open (st : ParserState) (line : String)
    (h1 : List.isPrefixOf ['*', ' '] (pyStrip line).data = false)
    (h2 : List.isPrefixOf ['-', ' '] (pyStrip line).data = true)
    (hl : (flushParagraph st).in_list = true) :
    processLine st line =
      { flushParagraph st with
        html_output :=
          (flushParagraph st).html_output ++
            ["<li>" ++ pyStrip (strDrop (pyStrip line) 2) ++ "</li>"] } := by
  unfold processLine
  simp only [h1, h2, if_true, hl, Bool.false_eq_true, if_false]

lemma processLine_unordered_new (st : ParserState) (line : String)
    (h1 : List.isPrefixOf ['*', ' '] (pyStrip line).data = false)
    (h2 : List.isPrefixOf ['-', ' '] (pyStrip line).data = true)
    (hl : (flushParagraph st).in_list = false) :
    processLine st line =
      { flushParagraph st with
        html_output :=
          ((flushParagraph st).html_output ++ ["<ul>"]) ++
            ["<li>" ++ pyStrip (strDrop (pyStrip line) 2) ++ "</li>"],
        in_list := true,
        list_type := some ListType.unordered } := by
  unfold processLine
  simp only [h1, h2, if_true, hl, Bool.false_eq_true, if_false]

lemma processLine_blank (st : ParserState) (line : String)
    (h : pyStrip line = "") :
    processLine st line = closeList (flushParagraph st) := by
  unfold processLine
  rw [h]
  rfl

lemma processLine_plain (st : ParserState) (line : String)
    (h0 : ¬ pyStrip line = "")
    (h1 : List.isPrefixOf ['*', ' '] (pyStrip line).data = false)
    (h2 : List.isPrefixOf ['-', ' '] (pyStrip line).data = false) :
    processLine st line =
      { closeList st with
        paragraph_lines := (closeList st).paragraph_lines ++ [pyStrip line] } := by
  unfold processLine
  simp only [h1, h2, h0, Bool.false_eq_true, if_false]

/-! ### Preservation of the list-tag invariant -/

lemma frag_long_p (t : String) : 6 ≤ ("<p>" ++ t ++ "</p>").length := by
  rw [String.length_append, String.length_append]
  have ha : ("<p>" : String).length = 3 := rfl
  have hb : ("</p>" : String).length = 4 := rfl
  omega

lemma frag_long_li (t : String) : 6 ≤ ("<li>" ++ t ++ "</li>").length := by
  rw [String.length_append, String.length_append]
  have ha : ("<li>" : String).length = 4 := rfl
  have hb : ("</li>" : String).length = 5 := rfl
  omega

lemma tagStep_of_long (cur : Option ListType) (f : String) (h : 6 ≤ f.length) :
    tagStep (some cur) f = some cur := by
  have h1 : f ≠ "<ol>" := by rintro rfl; exact absurd h (by decide)
  have h2 : f ≠ "<ul>" := by rintro rfl; exact absurd h (by decide)
  have h3 : f ≠ "</ol>" := by rintro rfl; exact absurd h (by decide)
  have h4 : f ≠ "</ul>" := by rintro rfl; exact absurd h (by decide)
  unfold tagStep
  simp only [h1, h2, h3, h4, if_false]

lemma scanTags_snoc (cur : Option ListType) (frags : List String) (f : String) :
    scanTags cur (frags ++ [f]) = (scanTags cur frags).rec none (fun acc => tagStep (some acc) f)
      := by
  unfold scanTags
  rw [List.foldl_append]
  cases List.foldl tagStep (some cur) frags with
  | none => rfl
  | some a => rfl

lemma flushParagraph_in_list (st : ParserState) :
    (flushParagraph st).in_list = st.in_list := by
  unfold flushParagraph; split <;> rfl

lemma flushParagraph_list_type (st : ParserState) :
    (flushParagraph st).list_type = st.list_type := by
  unfold flushParagraph; split <;> rfl

lemma inv_flushParagraph (st : ParserState) (h : Inv st) : Inv (flushParagraph st) := by
  obtain ⟨h1, h2⟩ := h
  unfold flushParagraph
  split
  · exact ⟨h1, h2⟩
  · refine ⟨h1, ?_⟩
    show scanTags none (st.html_output ++ [_]) = some st.list_type
    rw [scanTags_snoc, h2]
    exact tagStep_of_long _ _ (frag_long_p _)

lemma inv_closeList (st : ParserState) (h : Inv st) :
    Inv (closeList st) ∧ (closeList st).in_list = false := by
  obtain ⟨h1, h2⟩ := h
  unfold closeList
  by_cases hl : st.in_list = true
  · rw [if_pos hl]
    obtain ⟨k, hk⟩ := Option.isSome_iff_exists.mp (by rw [← h1]; exact hl)
    cases k
    · refine ⟨⟨rfl, ?_⟩, rfl⟩
      show scanTags none (st.html_output ++ _) = some none
      rw [hk]
      rw [scanTags_snoc, h2, hk]
      rfl
    · refine ⟨⟨rfl, ?_⟩, rfl⟩
      show scanTags none (st.html_output ++ _) = some none
      rw [hk]
      rw [scanTags_snoc, h2, hk]
      rfl
  · rw [if_neg hl]
    exact ⟨⟨h1, h2⟩, by simpa using hl⟩

lemma list_type_none_of_not_in_list (st : ParserState) (h1 : st.in_list = st.list_type.isSome)
    (hl : st.in_list = false) : st.list_type = none := by
  cases ht : st.list_type with
  | none => rfl
  | some k => rw [ht] at h1; rw [hl] at h1; simp at h1

lemma inv_processLine (st : ParserState) (line : String) (h : Inv st) :
    Inv (processLine st line) := by
  cases hb1 : List.isPrefixOf ['*', ' '] (pyStrip line).data with
  | true =>
    obtain ⟨i1, i2⟩ := inv_flushParagraph st h
    cases hl : (flushParagraph st).in_list with
    | true =>
      rw [processLine_ordered_open st line hb1 hl]
      refine ⟨i1, ?_⟩
      show scanTags none ((flushParagraph st).html_output ++ _) = some (flushParagraph st).list_type
      rw [scanTags_snoc, i2]
      exact tagStep_of_long _ _ (frag_long_li _)
    | false =>
      rw [processLine_ordered_new st line hb1 hl]
      have hnone := list_type_none_of_not_in_list _ i1 hl
      refine ⟨rfl, ?_⟩
      show scanTags none (((flushParagraph st).html_output ++ ["<ol>"]) ++ _) =
        some (some ListType.ordered)
      rw [scanTags_snoc, scanTags_snoc, i2, hnone]
      exact tagStep_of_long _ _ (frag_long_li _)
  | false =>
    cases hb2 : List.isPrefixOf ['-', ' '] (pyStrip line).data with
    | true =>
      obtain ⟨i1, i2⟩ := inv_flushParagraph st h
      cases hl : (flushParagraph st).in_list with
      | true =>
        rw [processLine_unordered_open st line hb1 hb2 hl]
        refine ⟨i1, ?_⟩
        show scanTags none ((flushParagraph st).html_output ++ _) =
          some (flushParagraph st).list_type
        rw [scanTags_snoc, i2]
        exact tagStep_of_long _ _ (frag_long_li _)
      | false =>
        rw [processLine_unordered_new st line hb1 hb2 hl]
        have hnone := list_type_none_of_not_in_list _ i1 hl
        refine ⟨rfl, ?_⟩
        show scanTags none (((flushParagraph st).html_output ++ ["<ul>"]) ++ _) =
          some (some ListType.unordered)
        rw [scanTags_snoc, scanTags_snoc, i2, hnone]
        exact tagStep_of_long _ _ (frag_long_li _)
    | false =>
      by_cases hb3 : pyStrip line = ""
      · rw [processLine_blank st line hb3]
        exact (inv_closeList _ (inv_flushParagraph st h)).1
      · rw [processLine_plain st line hb3 hb1 hb2]
        obtain ⟨i1, i2⟩ := (inv_closeList st h).1
        exact ⟨i1, i2⟩

lemma inv_foldl (lines : List String) (st : ParserState) (h : Inv st) :
    Inv (List.foldl processLine st lines) := by
  induction lines generalizing st with
  | nil => exact h
  | cons l ls ih =>
    rw [List.foldl_cons]
    exact ih _ (inv_processLine st l h)

lemma inv_initState : Inv initState := ⟨rfl, rfl⟩

lemma inv_scanState (md : String) : Inv (scanState md) :=
  inv_foldl _ _ inv_initState

/-! ### Output-extension and shape lemmas -/

lemma closeList_in_list (st : ParserState) : (closeList st).in_list = false := by
  unfold closeList
  by_cases hl : st.in_list = true
  · rw [if_pos hl]
  · rw [if_neg hl]
    simpa using hl

lemma closeList_html (st : ParserState) :
    (closeList st).html_output = st.html_output ∨
      (closeList st).html_output = st.html_output ++ ["</ol>"] ∨
        (closeList st).html_output = st.html_output ++ ["</ul>"] := by
  unfold closeList
  by_cases hl : st.in_list = true
  · rw [if_pos hl]
    cases st.list_type with
    | none => left; simp
    | some k =>
      cases k
      · right; left; rfl
      · right; right; rfl
  · rw [if_neg hl]
    left; rfl

lemma flushParagraph_html (st : ParserState) :
    (flushParagraph st).html_output = st.html_output ∨
      (flushParagraph st).html_output =
        st.html_output ++ ["<p>" ++ String.intercalate " " st.paragraph_lines ++ "</p>"] := by
  unfold flushParagraph
  split
  · left; rfl
  · right; rfl

lemma shape_flushParagraph (st : ParserState) (h : ∀ f ∈ st.html_output, FragShape f) :
    ∀ f ∈ (flushParagraph st).html_output, FragShape f := by
  intro f hf
  rcases flushParagraph_html st with he | he
  · exact h f (he ▸ hf)
  · rw [he] at hf
    rcases List.mem_append.mp hf with hf | hf
    · exact h f hf
    · rw [List.mem_singleton.mp hf]
      exact Or.inr (Or.inr (Or.inr (Or.inr (Or.inr ⟨_, rfl⟩))))

lemma shape_closeList (st : ParserState) (h : ∀ f ∈ st.html_output, FragShape f) :
    ∀ f ∈ (closeList st).html_output, FragShape f := by
  intro f hf
  rcases closeList_html st with he | he | he
  · exact h f (he ▸ hf)
  · rw [he] at hf
    rcases List.mem_append.mp hf with hf | hf
    · exact h f hf
    · rw [List.mem_singleton.mp hf]
      exact Or.inr (Or.inl rfl)
  · rw [he] at hf
    rcases List.mem_append.mp hf with hf | hf
    · exact h f hf
    · rw [List.mem_singleton.mp hf]
      exact Or.inr (Or.inr (Or.inr (Or.inl rfl)))

lemma shape_processLine (st : ParserState) (line : String)
    (h : ∀ f ∈ st.html_output, FragShape f) :
    ∀ f ∈ (processLine st line).html_output, FragShape f := by
  have hfl := shape_flushParagraph st h
  cases hb1 : List.isPrefixOf ['*', ' '] (pyStrip line).data with
  | true =>
    cases hl : (flushParagraph st).in_list with
    | true =>
      rw [processLine_ordered_open st line hb1 hl]
      intro f hf
      rcases List.mem_append.mp hf with hf | hf
      · exact hfl f hf
      · rw [List.mem_singleton.mp hf]
        exact Or.inr (Or.inr (Or.inr (Or.inr (Or.inl ⟨_, rfl⟩))))
    | false =>
      rw [processLine_ordered_new st line hb1 hl]
      intro f hf
      rcases List.mem_append.mp hf with hf | hf
      · rcases List.mem_append.mp hf with hf | hf
        · exact hfl f hf
        · rw [List.mem_singleton.mp hf]
          exact Or.inl rfl
      · rw [List.mem_singleton.mp hf]
        exact Or.inr (Or.inr (Or.inr (Or.inr (Or.inl ⟨_, rfl⟩))))
  | false =>
    cases hb2 : List.isPrefixOf ['-', ' '] (pyStrip line).data with
    | true =>
      cases hl : (flushParagraph st).in_list with
      | true =>
        rw [processLine_unordered_open st line hb1 hb2 hl]
        intro f hf
        rcases List.mem_append.mp hf with hf | hf
        · exact hfl f hf
        · rw [List.mem_singleton.mp hf]
          exact Or.inr (Or.inr (Or.inr (Or.inr (Or.inl ⟨_, rfl⟩))))
      | false =>
        rw [processLine_unordered_new st line hb1 hb2 hl]
        intro f hf
        rcases List.mem_append.mp hf with hf | hf
        · rcases List.mem_append.mp hf with hf | hf
          · exact hfl f hf
          · rw [List.mem_singleton.mp hf]
            exact Or.inr (Or.inr (Or.inl rfl))
        · rw [List.mem_singleton.mp hf]
          exact Or.inr (Or.inr (Or.inr (Or.inr (Or.inl ⟨_, rfl⟩))))
    | false =>
      by_cases hb3 : pyStrip line = ""
      · rw [processLine_blank st line hb3]
        exact shape_closeList _ hfl
      · rw [processLine_plain st line hb3 hb1 hb2]
        exact shape_closeList st h

lemma shape_foldl (lines : List String) (st : ParserState)
    (h : ∀ f ∈ st.html_output, FragShape f) :
    ∀ f ∈ (List.foldl processLine st lines).html_output, FragShape f := by
  induction lines generalizing st with
  | nil => exact h
  | cons l ls ih =>
    rw [List.foldl_cons]
    exact ih _ (shape_processLine st l h)

/-! ### The all-plain-lines scan (paragraph passthrough) -/

lemma foldl_plain_lines (lines : List String) (acc : List String)
    (h : ∀ l ∈ lines, ¬ pyStrip l = "" ∧
      List.isPrefixOf ['*', ' '] (pyStrip l).data = false ∧
      List.isPrefixOf ['-', ' '] (pyStrip l).data = false) :
    List.foldl processLine ⟨[], false, none, acc⟩ lines =
      ⟨[], false, none, acc ++ lines.map pyStrip⟩ := by
  induction lines generalizing acc with
  | nil => simp
  | cons l ls ih =>
    obtain ⟨h0, h1, h2⟩ := h l (List.mem_cons_self l ls)
    rw [List.foldl_cons, processLine_plain _ _ h0 h1 h2]
    show List.foldl processLine ⟨[], false, none, acc ++ [pyStrip l]⟩ ls = _
    rw [ih _ (fun x hx => h x (List.mem_cons_of_mem l hx))]
    simp

/-- A heading-marker test, taken from the spec (classification rule 1): one
or more `#` characters followed by a space.  The source has no heading
branch; this definition is only used to state hypotheses the way the spec
phrases them. -/
def headingMarker (s : String) : Bool :=
  match s.data with
  | '#' :: rest => (rest.dropWhile (fun c => c == '#')).head? == some ' '
  | _ => false

lemma headingMarker_head (s : String) (h : headingMarker s = true) :
    ∃ rest, s.data = '#' :: rest := by
  unfold headingMarker at h
  cases hd : s.data with
  | nil =>
    rw [hd] at h
    exact absurd h (by decide)
  | cons c rest =>
    rw [hd] at h
    split at h
    · rename_i heq
      exact ⟨_, heq⟩
    · exact absurd h (by decide)

/-! ### Claims -/

/-- Claim C7 (confirmed): applied to the empty string, the parser returns
the empty string. -/
theorem empty_input : parse_custom_markdown "" = "" := rfl

/-- Claim C4 (confirmed): for the input `"- a\n- b\n\nc"` the output is the
closed list `<ul><li>a</li><li>b</li></ul>` followed by the paragraph
`<p>c</p>`; in general a blank line flushes any non-empty paragraph buffer
and closes any open list by emitting its closing tag. -/
theorem blank_closes_list :
    finalFragments "- a\n- b\n\nc" = ["<ul>", "<li>a</li>", "<li>b</li>", "</ul>", "<p>c</p>"] ∧
    parse_custom_markdown "- a\n- b\n\nc" = "<ul>\n<li>a</li>\n<li>b</li>\n</ul>\n<p>c</p>" ∧
    (∀ st line, pyStrip line = "" → processLine st line = closeList (flushParagraph st)) := by
  refine ⟨rfl, rfl, ?_⟩
  intro st line hl
  exact processLine_blank st line hl

/-- Witness for C4: the blank-line step at a concrete state and line. -/
theorem blank_closes_list_witness :
    processLine initState "" = closeList (flushParagraph initState) :=
  blank_closes_list.2.2 initState "" rfl

/-- Claim C5 (confirmed): at end of input every still-open list gets its
closing tag (the emitted list tags are fully matched, with no list left
open), and a non-empty paragraph buffer is flushed as a complete
`<p>...</p>` element appearing in the output. -/
theorem end_of_input_flush (md : String) :
    scanTags none (finalFragments md) = some none ∧
    ((scanState md).paragraph_lines ≠ [] →
      ("<p>" ++ String.intercalate " " (scanState md).paragraph_lines ++ "</p>") ∈
        finalFragments md) := by
  constructor
  · have h1 := inv_scanState md
    have h2 := inv_flushParagraph _ h1
    obtain ⟨⟨i1, i2⟩, hil⟩ := inv_closeList _ h2
    have hnone := list_type_none_of_not_in_list _ i1 hil
    rw [hnone] at i2
    exact i2
  · intro hp
    unfold finalFragments
    have hf : (flushParagraph (scanState md)).html_output =
        (scanState md).html_output ++
          ["<p>" ++ String.intercalate " " (scanState md).paragraph_lines ++ "</p>"] := by
      unfold flushParagraph
      rw [if_neg hp]
    rcases closeList_html (flushParagraph (scanState md)) with he | he | he <;>
      rw [he, hf] <;> simp

/-- Witness for C5: an input ending in unflushed paragraph text still gets
its `<p>...</p>` element. -/
theorem end_of_input_flush_witness :
    ("<p>" ++ String.intercalate " " (scanState "x").paragraph_lines ++ "</p>") ∈
      finalFragments "x" :=
  (end_of_input_flush "x").2 (by decide)

/-- Claim C6 (confirmed): a non-empty document in which no stripped line is
blank, none starts with a list marker and none starts with a heading marker
is rendered as a single paragraph: `<p>` plus the stripped lines joined by
single spaces plus `</p>`. -/
theorem plain_passthrough (md : String)
    (hne : pySplitlines md ≠ [])
    (h : ∀ l ∈ pySplitlines md, ¬ pyStrip l = "" ∧
      List.isPrefixOf ['*', ' '] (pyStrip l).data = false ∧
      List.isPrefixOf ['-', ' '] (pyStrip l).data = false ∧
      headingMarker (pyStrip l) = false) :
    finalFragments md =
      ["<p>" ++ String.intercalate " " ((pySplitlines md).map pyStrip) ++ "</p>"] ∧
    parse_custom_markdown md =
      "<p>" ++ String.intercalate " " ((pySplitlines md).map pyStrip) ++ "</p>" := by
  have hscan : scanState md = ⟨[], false, none, (pySplitlines md).map pyStrip⟩ := by
    unfold scanState initState
    rw [foldl_plain_lines _ _ (fun l hl => ⟨(h l hl).1, (h l hl).2.1, (h l hl).2.2.1⟩)]
    simp
  have hmap : (pySplitlines md).map pyStrip ≠ [] := by
    intro hx
    exact hne (List.map_eq_nil_iff.mp hx)
  have hfrag : finalFragments md =
      ["<p>" ++ String.intercalate " " ((pySplitlines md).map pyStrip) ++ "</p>"] := by
    unfold finalFragments
    rw [hscan]
    unfold flushParagraph
    rw [if_neg hmap]
    rfl
  refine ⟨hfrag, ?_⟩
  unfold parse_custom_markdown
  rw [hfrag]
  rfl

/-- Witness for C6: the two-line document `"a\nb"` becomes one paragraph. -/
theorem plain_passthrough_witness :
    finalFragments "a\nb" =
      ["<p>" ++ String.intercalate " " ((pySplitlines "a\nb").map pyStrip) ++ "</p>"] ∧
    parse_custom_markdown "a\nb" =
      "<p>" ++ String.intercalate " " ((pySplitlines "a\nb").map pyStrip) ++ "</p>" :=
  plain_passthrough "a\nb" (by decide) (by decide)

/-- Claim C8 (confirmed): the parse function is total and no error branch is
reachable: on every input every emitted fragment is a well-formed list
delimiter, list item or paragraph, and a bare `#` line (no following space)
is classified as plain text, appended to the paragraph buffer. -/
theorem parse_total_shape (md : String) :
    (∀ f ∈ finalFragments md, FragShape f) ∧
    (∀ st, processLine st "#" =
      { closeList st with paragraph_lines := (closeList st).paragraph_lines ++ ["#"] }) := by
  constructor
  · have h0 : ∀ f ∈ initState.html_output, FragShape f := by
      intro f hf
      cases hf
    have h1 := shape_foldl (pySplitlines md) initState h0
    exact shape_closeList _ (shape_flushParagraph _ h1)
  · intro st
    rw [processLine_plain st "#" (by decide) (by decide) (by decide)]
    rfl

/-- Witness for C8: the single fragment produced from input `"x"` is a
well-formed paragraph. -/
theorem parse_total_shape_witness : FragShape "<p>x</p>" :=
  (parse_total_shape "x").1 "<p>x</p>" (by decide)

/-- Claim C9 (confirmed): at every point of the scan the emitted fragments
have properly matched list tags with at most one list open (every opening
tag is emitted with no list open, every closing tag matches the open kind,
which is exactly the machine's `list_type`), and a step that leaves the
list open never changes its kind. -/
theorem list_invariant :
    (∀ lines : List String,
      (List.foldl processLine initState lines).in_list =
        (List.foldl processLine initState lines).list_type.isSome ∧
      scanTags none (List.foldl processLine initState lines).html_output =
        some (List.foldl processLine initState lines).list_type) ∧
    (∀ st line, st.in_list = true → (processLine st line).in_list = true →
      (processLine st line).list_type = st.list_type) := by
  constructor
  · intro lines
    exact inv_foldl lines initState inv_initState
  · intro st line hl hl2
    cases hb1 : List.isPrefixOf ['*', ' '] (pyStrip line).data with
    | true =>
      have hfl : (flushParagraph st).in_list = true := by
        rw [flushParagraph_in_list]
        exact hl
      rw [processLine_ordered_open st line hb1 hfl]
      show (flushParagraph st).list_type = st.list_type
      exact flushParagraph_list_type st
    | false =>
      cases hb2 : List.isPrefixOf ['-', ' '] (pyStrip line).data with
      | true =>
        have hfl : (flushParagraph st).in_list = true := by
          rw [flushParagraph_in_list]
          exact hl
        rw [processLine_unordered_open st line hb1 hb2 hfl]
        show (flushParagraph st).list_type = st.list_type
        exact flushParagraph_list_type st
      | false =>
        by_cases hb3 : pyStrip line = ""
        · rw [processLine_blank st line hb3, closeList_in_list] at hl2
          simp at hl2
        · rw [processLine_plain st line hb3 hb1 hb2] at hl2
          have hcl : ({ closeList st with
              paragraph_lines := (closeList st).paragraph_lines ++ [pyStrip line] } :
                ParserState).in_list = (closeList st).in_list := rfl
          rw [hcl, closeList_in_list] at hl2
          simp at hl2

/-- Witness for C9: a step appending a second item to an open list keeps its
kind. -/
theorem list_invariant_witness :
    (processLine ⟨["<ul>", "<li>a</li>"], true, some ListType.unordered, []⟩ "- b").list_type =
      (⟨["<ul>", "<li>a</li>"], true, some ListType.unordered, []⟩ : ParserState).list_type :=
  list_invariant.2 ⟨["<ul>", "<li>a</li>"], true, some ListType.unordered, []⟩ "- b" rfl
    (by decide)

/-- Claim C10 (confirmed): a line whose stripped residue is a bare marker
(`-` or `*`, optionally surrounded by whitespace) is neither an empty list
item nor a blank separator: it is appended to the paragraph buffer as plain
text (after closing any open list). -/
theorem bare_marker_plain (st : ParserState) (line : String)
    (h : pyStrip line = "-" ∨ pyStrip line = "*") :
    processLine st line =
      { closeList st with paragraph_lines := (closeList st).paragraph_lines ++ [pyStrip line] } ∧
    finalFragments "- \n* " = ["<p>- *</p>"] := by
  refine ⟨?_, rfl⟩
  rcases h with h | h <;>
    exact processLine_plain st line (by rw [h]; decide) (by rw [h]; rfl) (by rw [h]; rfl)

/-- Witness for C10: the line `"  - "` (marker with no text) goes to the
paragraph buffer. -/
theorem bare_marker_plain_witness :
    processLine initState "  - " =
      { closeList initState with
        paragraph_lines := (closeList initState).paragraph_lines ++ [pyStrip "  - "] } ∧
    finalFragments "- \n* " = ["<p>- *</p>"] :=
  bare_marker_plain initState "  - " (Or.inl (by decide))

/-- Claim C1 counterexample: on input `"- a\n* b"` the parser emits a single
`<ul>` block containing both items; no `<ol>` block is ever opened, so the
claimed close-then-open behaviour does not happen. -/
theorem kind_switch_counterexample :
    finalFragments "- a\n* b" = ["<ul>", "<li>a</li>", "<li>b</li>", "</ul>"] ∧
    "<ol>" ∉ finalFragments "- a\n* b" ∧
    parse_custom_markdown "- a\n* b" = "<ul>\n<li>a</li>\n<li>b</li>\n</ul>" :=
  ⟨rfl, by decide, rfl⟩

/-- Claim C1 (corrected): when a list is already open and an item of either
kind arrives, the parser appends the new `<li>` to the open list without
closing it or opening a new one (the item branches only test `in_list`, not
the kind); on `"- a\n* b"` both items end up in one `<ul>` block. -/
theorem kind_switch_amended :
    (∀ st line, st.in_list = true →
      (List.isPrefixOf ['*', ' '] (pyStrip line).data = true ∨
        (List.isPrefixOf ['*', ' '] (pyStrip line).data = false ∧
          List.isPrefixOf ['-', ' '] (pyStrip line).data = true)) →
      processLine st line =
        { flushParagraph st with
          html_output := (flushParagraph st).html_output ++
            ["<li>" ++ pyStrip (strDrop (pyStrip line) 2) ++ "</li>"] }) ∧
    finalFragments "- a\n* b" = ["<ul>", "<li>a</li>", "<li>b</li>", "</ul>"] := by
  constructor
  · intro st line hl hi
    have hfl : (flushParagraph st).in_list = true := by
      rw [flushParagraph_in_list]
      exact hl
    rcases hi with hi | ⟨hi1, hi2⟩
    · exact processLine_ordered_open st line hi hfl
    · exact processLine_unordered_open st line hi1 hi2 hfl
  · rfl

/-- Witness for C1 (amended): an ordered-marker item arriving while an
unordered list is open is appended as a bare `<li>`. -/
theorem kind_switch_amended_witness :
    processLine ⟨["<ul>", "<li>a</li>"], true, some ListType.unordered, []⟩ "* b" =
      { flushParagraph ⟨["<ul>", "<li>a</li>"], true, some ListType.unordered, []⟩ with
        html_output :=
          (flushParagraph
              ⟨["<ul>", "<li>a</li>"], true, some ListType.unordered, []⟩).html_output ++
            ["<li>" ++ pyStrip (strDrop (pyStrip "* b") 2) ++ "</li>"] } :=
  kind_switch_amended.1 ⟨["<ul>", "<li>a</li>"], true, some ListType.unordered, []⟩ "* b" rfl
    (Or.inl (by decide))

/-- Claim C2 counterexample: on input `"# Title\n- item"` the heading line
is not rendered as `<h1>Title</h1>`; it is flushed as the paragraph
`<p># Title</p>`. -/
theorem heading_counterexample :
    finalFragments "# Title\n- item" = ["<p># Title</p>", "<ul>", "<li>item</li>", "</ul>"] ∧
    "<h1>Title</h1>" ∉ finalFragments "# Title\n- item" :=
  ⟨rfl, by decide⟩

/-- Claim C2 (corrected): the single scan has no heading rule at all: every
line whose stripped text is a heading-marker line (one or more `#` followed
by a space) is classified as plain text, so it closes any open list and
enters the paragraph buffer instead of being emitted immediately; on
`"# Title\n- item"` this yields `<p># Title</p>` followed by the list
block. -/
theorem heading_amended :
    (∀ st line, headingMarker (pyStrip line) = true →
      processLine st line =
        { closeList st with
          paragraph_lines := (closeList st).paragraph_lines ++ [pyStrip line] }) ∧
    finalFragments "# Title\n- item" = ["<p># Title</p>", "<ul>", "<li>item</li>", "</ul>"] := by
  constructor
  · intro st line hm
    obtain ⟨rest, hd⟩ := headingMarker_head _ hm
    refine processLine_plain st line ?_ ?_ ?_
    · intro he
      rw [he] at hd
      exact List.noConfusion (show ([] : List Char) = '#' :: rest from hd)
    · rw [hd]
      rfl
    · rw [hd]
      rfl
  · rfl

/-- Witness for C2 (amended): the heading line `"# Title"` is appended to
the paragraph buffer. -/
theorem heading_amended_witness :
    processLine initState "# Title" =
      { closeList initState with
        paragraph_lines := (closeList initState).paragraph_lines ++ [pyStrip "# Title"] } :=
  heading_amended.1 initState "# Title" (by decide)

/-- Claim C3 counterexample: with the wrong argument count the program does
exit with code 1 and prints the usage string, but the diagnostic goes to
standard output; nothing is written to the error stream. -/
theorem cli_stream_counterexample :
    (main (fun s => s) ⟨true, Except.ok "", Except.ok ()⟩ ["prog"]).exitCode = 1 ∧
    (main (fun s => s) ⟨true, Except.ok "", Except.ok ()⟩ ["prog"]).stdout =
      ["Usage: python3 markdown2html.py <input_file.md> <output_file.html>"] ∧
    (main (fun s => s) ⟨true, Except.ok "", Except.ok ()⟩ ["prog"]).stderr = [] :=
  ⟨rfl, rfl, rfl⟩

/-- Claim C3 (corrected): the program exits 1 with a diagnostic on standard
output (never on the error stream) exactly when the argument count is not
two, the input path does not exist, or the read or write fails (the message
then includes the underlying cause); otherwise it exits 0. -/
theorem cli_exit_amended (mdlib : String → String) (fs : FS) (argv : List String) :
    (main mdlib fs argv).stderr = [] ∧
    ((main mdlib fs argv).exitCode = 1 ↔
      (argv.length ≠ 3 ∨ fs.inputExists = false ∨
        (∃ e, fs.readResult = Except.error e) ∨ (∃ e, fs.writeResult = Except.error e))) ∧
    ((main mdlib fs argv).exitCode = 1 ∨ (main mdlib fs argv).exitCode = 0) ∧
    ((main mdlib fs argv).exitCode = 1 → (main mdlib fs argv).stdout ≠ []) ∧
    (argv.length = 3 → fs.inputExists = true → ∀ e, fs.readResult = Except.error e →
      (main mdlib fs argv).stdout = ["An error occurred: " ++ e]) := by
  obtain ⟨ex, rr, wr⟩ := fs
  by_cases ha : argv.length = 3
  case neg =>
    unfold main
    rw [if_pos ha]
    exact ⟨rfl, ⟨fun _ => Or.inl ha, fun _ => rfl⟩, Or.inl rfl, fun _ => by simp,
      fun h3 => absurd h3 ha⟩
  case pos =>
    unfold main
    rw [if_neg (show ¬ argv.length ≠ 3 from fun hc => hc ha)]
    unfold convert_markdown_to_html
    cases ex with
    | false =>
      rw [if_pos (show (FS.mk false rr wr).inputExists = false from rfl)]
      refine ⟨rfl, ⟨fun _ => Or.inr (Or.inl rfl), fun _ => rfl⟩, Or.inl rfl, fun _ => by simp,
        ?_⟩
      intro _ h2 _ _
      exact Bool.noConfusion (show false = true from h2)
    | true =>
      rw [if_neg (show ¬ (FS.mk true rr wr).inputExists = false from
        fun hc => Bool.noConfusion (show true = false from hc))]
      cases rr with
      | error e =>
        refine ⟨rfl, ⟨fun _ => Or.inr (Or.inr (Or.inl ⟨e, rfl⟩)), fun _ => rfl⟩, Or.inl rfl,
          fun _ => by simp, ?_⟩
        intro _ _ f hf
        have hef : Except.error (ε := String) (α := String) e = Except.error f := hf
        injection hef with he
        rw [he]
      | ok mdc =>
        cases wr with
        | error e =>
          refine ⟨rfl, ⟨fun _ => Or.inr (Or.inr (Or.inr ⟨e, rfl⟩)), fun _ => rfl⟩, Or.inl rfl,
            fun _ => by simp, ?_⟩
          intro _ _ f hf
          exact Except.noConfusion
            (show Except.ok (ε := String) mdc = Except.error f from hf)
        | ok u =>
          refine ⟨rfl,
            ⟨fun h0 => absurd (show (0 : Nat) = 1 from h0) (by decide), ?_⟩, Or.inr rfl,
            fun h0 => absurd (show (0 : Nat) = 1 from h0) (by decide), ?_⟩
          · intro hd
            rcases hd with hd | hd | ⟨f, hf⟩ | ⟨f, hf⟩
            · exact absurd ha hd
            · exact Bool.noConfusion (show true = false from hd)
            · exact Except.noConfusion
                (show Except.ok (ε := String) mdc = Except.error f from hf)
            · exact Except.noConfusion
                (show Except.ok (α := Unit) (ε := String) u = Except.error f from hf)
          · intro _ _ f hf
            exact Except.noConfusion
              (show Except.ok (ε := String) mdc = Except.error f from hf)

/-- Witness for C3 (amended): a failing read with argument count right and
the input present exits 1 and reports the cause on standard output. -/
theorem cli_exit_amended_witness :
    (main (fun s => s) ⟨true, Except.error "boom", Except.ok ()⟩ ["p", "i", "o"]).exitCode = 1 ∧
    (main (fun s => s) ⟨true, Except.error "boom", Except.ok ()⟩ ["p", "i", "o"]).stdout =
      ["An error occurred: " ++ "boom"] :=
  ⟨(cli_exit_amended (fun s => s) ⟨true, Except.error "boom", Except.ok ()⟩
      ["p", "i", "o"]).2.1.mpr (Or.inr (Or.inr (Or.inl ⟨"boom", rfl⟩))),
   (cli_exit_amended (fun s => s) ⟨true, Except.error "boom", Except.ok ()⟩
      ["p", "i", "o"]).2.2.2.2 rfl rfl "boom" rfl⟩

end Md2Html
